import Mathlib

/-!
# Windows options of the application shell (`v3/pkg/application/options_win.go`)

A shallow embedding of the option records declared in `options_win.go`:
`WindowsApplicationOptions`, `BackdropType`, `WindowsWindow`, `Theme` and
`ThemeSettings`, together with the zero values Go gives to their fields.

Go types are embedded as follows.

* `int32`, `int`, `uint16`, `uint32`, `uintptr` : `Int` / `Nat`; a conversion to
  `int32` is the explicit wrap-around `toInt32`.
* `bool` : `Bool`, `string` : `String`.
* a pointer, a slice, a map or a func value, all of which may be `nil` : `Option`.
* the zero value of a type : the class `GoZero`.

The runtime that reads these records (message loop, event translation, theme and
backdrop resolution) lives in other files of the package; the parts of it that
properties below depend on are modelled from the specification and marked so.
-/

namespace WailsOptions

/-! ## Zero values -/

/-- Zero value of a Go type: what a variable or struct field holds when nothing was assigned. -/
class GoZero (α : Type) where
  zero : α

instance : GoZero Bool := ⟨false⟩
instance : GoZero Int := ⟨0⟩
instance : GoZero Nat := ⟨0⟩
instance : GoZero String := ⟨""⟩
instance {α : Type} : GoZero (Option α) := ⟨none⟩

/-- Conversion of an integer to Go `int32`: two's complement wrap-around into `[-2^31, 2^31)`. -/
def toInt32 (x : Int) : Int := (x + 2 ^ 31) % 2 ^ 32 - 2 ^ 31

/-! ## `BackdropType` (lines 23-31) -/

/-- Go `type BackdropType int32`. -/
abbrev BackdropType := Int

/-- Go `Auto BackdropType = 0`. -/
def Auto : BackdropType := 0
/-- Go `None BackdropType = 1`. -/
def None : BackdropType := 1
/-- Go `Mica BackdropType = 2`. -/
def Mica : BackdropType := 2
/-- Go `Acrylic BackdropType = 3`. -/
def Acrylic : BackdropType := 3
/-- Go `Tabbed BackdropType = 4`. -/
def Tabbed : BackdropType := 4

/-- The constants of the `const ( ... )` block of type `BackdropType`, in source order. -/
def backdropConsts : List (String × BackdropType) :=
  [("Auto", Auto), ("None", None), ("Mica", Mica), ("Acrylic", Acrylic), ("Tabbed", Tabbed)]

/-! ## `Theme` (lines 97-106) -/

/-- Go `type Theme int`. -/
abbrev Theme := Int

/-- Go `SystemDefault Theme = 0`: use the system theme and follow its changes. -/
def SystemDefault : Theme := 0
/-- Go `Dark Theme = 1`. -/
def Dark : Theme := 1
/-- Go `Light Theme = 2`. -/
def Light : Theme := 2

/-- The constants of the `const ( ... )` block of type `Theme`, in source order. -/
def themeConsts : List (String × Theme) :=
  [("SystemDefault", SystemDefault), ("Dark", Dark), ("Light", Light)]

/-! ## `ThemeSettings` (lines 108-123) -/

/-- Go `ThemeSettings`: twelve `int32` colour fields, written as `0x00BBGGRR`. -/
structure ThemeSettings where
  DarkModeTitleBar : Int
  DarkModeTitleBarInactive : Int
  DarkModeTitleText : Int
  DarkModeTitleTextInactive : Int
  DarkModeBorder : Int
  DarkModeBorderInactive : Int
  LightModeTitleBar : Int
  LightModeTitleBarInactive : Int
  LightModeTitleText : Int
  LightModeTitleTextInactive : Int
  LightModeBorder : Int
  LightModeBorderInactive : Int
  deriving DecidableEq

instance : GoZero ThemeSettings :=
  ⟨{ DarkModeTitleBar := GoZero.zero
     DarkModeTitleBarInactive := GoZero.zero
     DarkModeTitleText := GoZero.zero
     DarkModeTitleTextInactive := GoZero.zero
     DarkModeBorder := GoZero.zero
     DarkModeBorderInactive := GoZero.zero
     LightModeTitleBar := GoZero.zero
     LightModeTitleBarInactive := GoZero.zero
     LightModeTitleText := GoZero.zero
     LightModeTitleTextInactive := GoZero.zero
     LightModeBorder := GoZero.zero
     LightModeBorderInactive := GoZero.zero }⟩

/-- The twelve colour fields of a `ThemeSettings`, in declaration order. -/
def ThemeSettings.fields (t : ThemeSettings) : List Int :=
  [t.DarkModeTitleBar, t.DarkModeTitleBarInactive, t.DarkModeTitleText,
   t.DarkModeTitleTextInactive, t.DarkModeBorder, t.DarkModeBorderInactive,
   t.LightModeTitleBar, t.LightModeTitleBarInactive, t.LightModeTitleText,
   t.LightModeTitleTextInactive, t.LightModeBorder, t.LightModeBorderInactive]

/-- The hex literal `0x00BBGGRR` of the `ThemeSettings` comment, as an untyped integer constant. -/
def hexBGR (b g r : Nat) : Int := ((b * 65536 + g * 256 + r : Nat) : Int)

/-- A `ThemeSettings` whose twelve fields are all assigned the `int32` value of one colour. -/
def ThemeSettings.uniform (b g r : Nat) : ThemeSettings :=
  let c := toInt32 (hexBGR b g r)
  { DarkModeTitleBar := c
    DarkModeTitleBarInactive := c
    DarkModeTitleText := c
    DarkModeTitleTextInactive := c
    DarkModeBorder := c
    DarkModeBorderInactive := c
    LightModeTitleBar := c
    LightModeTitleBarInactive := c
    LightModeTitleText := c
    LightModeTitleTextInactive := c
    LightModeBorder := c
    LightModeBorderInactive := c }

/-! ## `WindowsWindow` (lines 33-95) -/

/-- Modelled from the spec: `events.WindowEventType` is declared in the `events` package;
the spec calls it a raw platform event identifier, here a natural number. -/
abbrev WindowEventType := Nat

/-- Modelled from the spec: `Menu` is declared elsewhere in the package; the window only holds
a reference to an externally-owned menu entity, here the identity of that entity. -/
abbrev Menu := Nat

/-- Go `WindowsWindow`. A `nil` pointer, slice or map is `none`; a Go map has unique keys,
so `EventMapping` is kept as a key/value list whose use is through `List.lookup`. -/
structure WindowsWindow where
  BackdropType : BackdropType
  DisableIcon : Bool
  Theme : Theme
  CustomTheme : Option ThemeSettings
  DisableFramelessWindowDecorations : Bool
  WindowMask : Option (List Nat)
  WindowMaskDraggable : Bool
  WebviewGpuIsDisabled : Bool
  ResizeDebounceMS : Nat
  DisableMenu : Bool
  EventMapping : Option (List (WindowEventType × WindowEventType))
  HiddenOnTaskbar : Bool
  EnableSwipeGestures : Bool
  EnableFraudulentWebsiteWarnings : Bool
  Menu : Option Menu
  deriving DecidableEq

instance : GoZero WindowsWindow :=
  ⟨{ BackdropType := GoZero.zero
     DisableIcon := GoZero.zero
     Theme := GoZero.zero
     CustomTheme := GoZero.zero
     DisableFramelessWindowDecorations := GoZero.zero
     WindowMask := GoZero.zero
     WindowMaskDraggable := GoZero.zero
     WebviewGpuIsDisabled := GoZero.zero
     ResizeDebounceMS := GoZero.zero
     DisableMenu := GoZero.zero
     EventMapping := GoZero.zero
     HiddenOnTaskbar := GoZero.zero
     EnableSwipeGestures := GoZero.zero
     EnableFraudulentWebsiteWarnings := GoZero.zero
     Menu := GoZero.zero }⟩

/-! ## `WindowsApplicationOptions` (lines 5-21) -/

/-- A native message: the four arguments `(hwnd, msg, wParam, lParam)` of the interceptor. -/
structure Message where
  hwnd : Nat
  msg : Nat
  wParam : Nat
  lParam : Nat
  deriving DecidableEq

/-- Go `func(hwnd uintptr, msg uint32, wParam, lParam uintptr) (returnCode uintptr, shouldReturn bool)`. -/
abbrev WndProcInterceptorFn := Nat → Nat → Nat → Nat → Nat × Bool

/-- Go `WindowsApplicationOptions`; a `nil` func value is `none`. -/
structure WindowsApplicationOptions where
  WndProcInterceptor : Option WndProcInterceptorFn
  DisableQuitOnLastWindowClosed : Bool
  WebviewUserDataPath : String
  WebviewBrowserPath : String

instance : GoZero WindowsApplicationOptions :=
  ⟨{ WndProcInterceptor := GoZero.zero
     DisableQuitOnLastWindowClosed := GoZero.zero
     WebviewUserDataPath := GoZero.zero
     WebviewBrowserPath := GoZero.zero }⟩

/-! ## The message loop and the interceptor (modelled) -/

/-- Modelled from the spec: the shell's own default handling of a native message, which lives in
the runtime and not in `options_win.go`. It is a step on the shell state `σ` that also yields the
value handed back to the operating system. -/
abbrev DefaultHandler (σ : Type) := σ → Message → σ × Nat

/-- State of the message loop: the shell state and the record of the messages on which the
default handler was invoked, most recent first. -/
structure LoopState (σ : Type) where
  shell : σ
  defaultHandled : List Message

/-- Modelled from the spec: running the shell's default handling on one message; the invocation
is recorded in `defaultHandled`. -/
def runDefault {σ : Type} (dh : DefaultHandler σ) (s : LoopState σ) (m : Message) :
    LoopState σ × Nat :=
  let r := dh s.shell m
  ({ shell := r.1, defaultHandled := m :: s.defaultHandled }, r.2)

/-- The interceptor of `opts` applied to the four words of a message. -/
def callInterceptor (f : WndProcInterceptorFn) (m : Message) : Nat × Bool :=
  f m.hwnd m.msg m.wParam m.lParam

/-- Modelled from the spec: handling of one native message by the main message loop (§4.1 and
the comment on `WndProcInterceptor`). A registered interceptor is called first; when it answers
`shouldReturn = true` its `returnCode` is the result and nothing else runs; otherwise the
`returnCode` is dropped and the message gets the default handling. -/
def wndProc {σ : Type} (opts : WindowsApplicationOptions) (dh : DefaultHandler σ)
    (s : LoopState σ) (m : Message) : LoopState σ × Nat :=
  match opts.WndProcInterceptor with
  | none => runDefault dh s m
  | some f =>
    match callInterceptor f m with
    | (returnCode, true) => (s, returnCode)
    | (_, false) => runDefault dh s m

/-- Modelled from the spec: the main message loop over the messages delivered, in order; it
yields the final state and the value returned to the operating system for each message. -/
def messageLoop {σ : Type} (opts : WindowsApplicationOptions) (dh : DefaultHandler σ) :
    LoopState σ → List Message → LoopState σ × List Nat
  | s, [] => (s, [])
  | s, m :: ms =>
    let r := wndProc opts dh s m
    let rest := messageLoop opts dh r.1 ms
    (rest.1, r.2 :: rest.2)

/-- Options that differ from `opts` only in having no interceptor registered. -/
def withoutInterceptor (opts : WindowsApplicationOptions) : WindowsApplicationOptions :=
  { opts with WndProcInterceptor := none }

/-! ## Event mapping (modelled) -/

/-- Modelled from the spec: the event-mapping lookup of §4.4, which the runtime performs on
`WindowsWindow.EventMapping`: the mapped event when the raw event is a key, else the raw event.
Reading a `nil` map finds no key. -/
def translateEvent (w : WindowsWindow) (e : WindowEventType) : WindowEventType :=
  match w.EventMapping with
  | none => e
  | some table =>
    match table.lookup e with
    | some mapped => mapped
    | none => e

/-! ## Backdrop resolution (modelled) -/

/-- The build named in the comment on `WindowsWindow.BackdropType`:
"Requires Windows 11 22621 or later". -/
def minBackdropBuild : Nat := 22621

/-- Modelled from the spec: backdrop resolution of §4.2, done by the runtime. Mica, Acrylic and
Tabbed need the minimum build; below it they are coerced to `Auto`. Other requests are kept. -/
def resolveBackdrop (osBuild : Nat) (requested : BackdropType) : BackdropType :=
  if (requested = Mica ∨ requested = Acrylic ∨ requested = Tabbed) ∧ osBuild < minBackdropBuild
  then Auto
  else requested

/-- A realized window: the option snapshot it was created from and its resolved backdrop. -/
structure RealizedWindow where
  options : WindowsWindow
  backdrop : BackdropType
  deriving DecidableEq

/-- Modelled from the spec: window realization as far as the backdrop is concerned (§4.2, §7).
An unsupported backdrop is a degraded-feature condition that is absorbed, never an error. -/
def realizeWindow (osBuild : Nat) (w : WindowsWindow) : Except String RealizedWindow :=
  Except.ok { options := w, backdrop := resolveBackdrop osBuild w.BackdropType }

/-! ## Theme resolution (modelled) -/

/-- The system-wide appearance, as carried by a system theme-change notification. -/
inductive SystemTheme where
  | dark
  | light
  deriving DecidableEq

/-- Modelled from the spec: the three states of the per-window theme state machine of §4.2. -/
inductive ThemeMode where
  | FollowingSystem
  | LockedDark
  | LockedLight
  deriving DecidableEq

/-- Resolved theme state of a window: the state of the machine and the appearance in use. -/
structure ThemeState where
  mode : ThemeMode
  resolved : SystemTheme
  deriving DecidableEq

/-- Modelled from the spec: theme resolution at window realization (§4.2). `SystemDefault` takes
the current system theme, `Dark` and `Light` are locked. The spec gives no meaning to a `Theme`
value that is none of the three constants, hence `none` there. -/
def resolveTheme (t : Theme) (system : SystemTheme) : Option ThemeState :=
  if t = SystemDefault then some { mode := ThemeMode.FollowingSystem, resolved := system }
  else if t = Dark then some { mode := ThemeMode.LockedDark, resolved := SystemTheme.dark }
  else if t = Light then some { mode := ThemeMode.LockedLight, resolved := SystemTheme.light }
  else none

/-- Modelled from the spec: the transition on a system theme-change notification (§4.2):
`FollowingSystem` goes to itself with the new system theme, the locked states have no
transition. -/
def onSystemThemeChanged (s : ThemeState) (system : SystemTheme) : ThemeState :=
  match s.mode with
  | ThemeMode.FollowingSystem => { s with resolved := system }
  | ThemeMode.LockedDark => s
  | ThemeMode.LockedLight => s

/-- The theme state after a sequence of system theme-change notifications, oldest first. -/
def afterNotifications (s : ThemeState) (ns : List SystemTheme) : ThemeState :=
  ns.foldl onSystemThemeChanged s

/-! ## Example inputs -/

/-- The interceptor of the end-to-end example: message `0x0010` is answered `(1, true)`, every
other message is passed through. -/
def closeVeto : WndProcInterceptorFn :=
  fun _ msg _ _ => if msg = 16 then (1, true) else (0, false)

/-- Application options with `closeVeto` registered and all other fields zero. -/
def closeVetoOptions : WindowsApplicationOptions :=
  { (GoZero.zero : WindowsApplicationOptions) with WndProcInterceptor := some closeVeto }

/-- A default handler on a counter state: it counts the messages and answers `0`. -/
def countingHandler : DefaultHandler Nat := fun n _ => (n + 1, 0)

/-- A window whose event mapping sends event `3` to `10` and event `5` to `11`. -/
def mappedWindow : WindowsWindow :=
  { (GoZero.zero : WindowsWindow) with EventMapping := some [(3, 10), (5, 11)] }

/-- A window that requests the Mica backdrop, all other fields zero. -/
def micaWindow : WindowsWindow :=
  { (GoZero.zero : WindowsWindow) with BackdropType := Mica }

/-- Whether message `m` is passed on to default handling under `opts`: no interceptor is
registered, or the registered one answers `shouldReturn = false`. -/
def passesThrough (opts : WindowsApplicationOptions) (m : Message) : Prop :=
  opts.WndProcInterceptor = none ∨
    ∃ f, opts.WndProcInterceptor = some f ∧ (callInterceptor f m).2 = false

/-! ## Lemmas on the message loop -/

theorem wndProc_of_shouldReturn {σ : Type} (opts : WindowsApplicationOptions)
    (dh : DefaultHandler σ) (f : WndProcInterceptorFn) (s : LoopState σ) (m : Message) (rc : Nat)
    (hreg : opts.WndProcInterceptor = some f) (hf : callInterceptor f m = (rc, true)) :
    wndProc opts dh s m = (s, rc) := by
  simp [wndProc, hreg, hf]

theorem wndProc_of_passthrough {σ : Type} (opts : WindowsApplicationOptions)
    (dh : DefaultHandler σ) (f : WndProcInterceptorFn) (s : LoopState σ) (m : Message)
    (hreg : opts.WndProcInterceptor = some f) (hf : (callInterceptor f m).2 = false) :
    wndProc opts dh s m = runDefault dh s m := by
  cases hc : callInterceptor f m with
  | mk rc b =>
    rw [hc] at hf
    simp only at hf
    subst hf
    simp [wndProc, hreg, hc]

theorem wndProc_of_unregistered {σ : Type} (opts : WindowsApplicationOptions)
    (dh : DefaultHandler σ) (s : LoopState σ) (m : Message)
    (hreg : opts.WndProcInterceptor = none) :
    wndProc opts dh s m = runDefault dh s m := by
  simp [wndProc, hreg]

theorem messageLoop_log {σ : Type} (opts : WindowsApplicationOptions)
    (dh : DefaultHandler σ) (f : WndProcInterceptorFn)
    (hreg : opts.WndProcInterceptor = some f) (ms : List Message) :
    ∀ s : LoopState σ, (messageLoop opts dh s ms).1.defaultHandled
      = (ms.filter (fun m => !(callInterceptor f m).2)).reverse ++ s.defaultHandled := by
  induction ms with
  | nil => intro s; simp [messageLoop]
  | cons m ms ih =>
    intro s
    simp only [messageLoop]
    rw [ih]
    cases hc : callInterceptor f m with
    | mk rc b =>
      cases b with
      | true =>
        rw [wndProc_of_shouldReturn opts dh f s m rc hreg hc]
        simp [List.filter_cons, hc]
      | false =>
        rw [wndProc_of_passthrough opts dh f s m hreg (by rw [hc])]
        simp [List.filter_cons, hc, runDefault]

theorem messageLoop_returns {σ : Type} (opts : WindowsApplicationOptions)
    (dh : DefaultHandler σ) (f : WndProcInterceptorFn)
    (hreg : opts.WndProcInterceptor = some f) (ms : List Message) :
    ∀ (s : LoopState σ) (i : Nat) (m : Message) (rc : Nat), ms[i]? = some m →
      callInterceptor f m = (rc, true) → (messageLoop opts dh s ms).2[i]? = some rc := by
  induction ms with
  | nil => intro s i m rc h; simp at h
  | cons a ms ih =>
    intro s i m rc h hc
    cases i with
    | zero =>
      simp only [List.getElem?_cons_zero, Option.some.injEq] at h
      subst h
      simp [messageLoop, wndProc_of_shouldReturn opts dh f s a rc hreg hc]
    | succ j =>
      simp only [List.getElem?_cons_succ] at h
      simp only [messageLoop, List.getElem?_cons_succ]
      exact ih _ j m rc h hc

theorem messageLoop_passthrough {σ : Type} (opts : WindowsApplicationOptions)
    (dh : DefaultHandler σ) (ms : List Message)
    (h : ∀ m ∈ ms, ∀ s : LoopState σ, wndProc opts dh s m = runDefault dh s m) :
    ∀ s : LoopState σ,
      messageLoop opts dh s ms = messageLoop (withoutInterceptor opts) dh s ms := by
  induction ms with
  | nil => intro s; rfl
  | cons a ms ih =>
    intro s
    have ha : wndProc opts dh s a = wndProc (withoutInterceptor opts) dh s a := by
      rw [h a (List.mem_cons_self a ms) s,
        wndProc_of_unregistered (withoutInterceptor opts) dh s a rfl]
    simp only [messageLoop, ha]
    rw [ih (fun m hm => h m (List.mem_cons_of_mem a hm))]

theorem wndProc_of_passesThrough {σ : Type} (opts : WindowsApplicationOptions)
    (dh : DefaultHandler σ) (s : LoopState σ) (m : Message) (h : passesThrough opts m) :
    wndProc opts dh s m = runDefault dh s m := by
  rcases h with h | ⟨f, hreg, hf⟩
  · exact wndProc_of_unregistered opts dh s m h
  · exact wndProc_of_passthrough opts dh f s m hreg hf

/-! ## The message interceptor -/

/-- C1: while an interceptor `f` is registered, a message on which `f` returns
`shouldReturn = true` gets `f`'s `returnCode` as the value returned by the main message loop and
leaves the loop state untouched, the default handler not being invoked; over a whole run of the
loop the default handler is invoked on exactly the messages `f` did not short-circuit, and the
value returned for each short-circuited message is `f`'s `returnCode`. -/
theorem interceptor_shouldReturn_short_circuits {σ : Type} (opts : WindowsApplicationOptions)
    (dh : DefaultHandler σ) (f : WndProcInterceptorFn)
    (hreg : opts.WndProcInterceptor = some f) :
    (∀ (s : LoopState σ) (m : Message) (rc : Nat), callInterceptor f m = (rc, true) →
        wndProc opts dh s m = (s, rc)) ∧
    (∀ (s : LoopState σ) (ms : List Message),
        (messageLoop opts dh s ms).1.defaultHandled
          = (ms.filter (fun m => !(callInterceptor f m).2)).reverse ++ s.defaultHandled) ∧
    (∀ (s : LoopState σ) (ms : List Message) (i : Nat) (m : Message) (rc : Nat),
        ms[i]? = some m → callInterceptor f m = (rc, true) →
        (messageLoop opts dh s ms).2[i]? = some rc) :=
  ⟨fun s m rc hf => wndProc_of_shouldReturn opts dh f s m rc hreg hf,
   fun s ms => messageLoop_log opts dh f hreg ms s,
   fun s ms i m rc hi hf => messageLoop_returns opts dh f hreg ms s i m rc hi hf⟩

/-- Witness of C1 on the end-to-end example: with `closeVeto` registered, message `0x0010` is
answered `1` and the counting default handler has not run. -/
theorem interceptor_shouldReturn_short_circuits_witness :
    closeVetoOptions.WndProcInterceptor = some closeVeto ∧
    wndProc closeVetoOptions countingHandler { shell := 0, defaultHandled := [] }
        { hwnd := 7, msg := 16, wParam := 0, lParam := 0 }
      = ({ shell := 0, defaultHandled := [] }, 1) :=
  ⟨rfl, (interceptor_shouldReturn_short_circuits closeVetoOptions countingHandler closeVeto
    rfl).1 _ _ 1 rfl⟩

/-- C2: when no interceptor is registered, or the interceptor returns `shouldReturn = false`,
the `returnCode` plays no part: the message gets exactly the default handling, which is also
what the same options without any interceptor give, for one message and for a whole run of the
loop. -/
theorem interceptor_passthrough_is_default {σ : Type} (opts : WindowsApplicationOptions)
    (dh : DefaultHandler σ) (ms : List Message) (h : ∀ m ∈ ms, passesThrough opts m) :
    (∀ m ∈ ms, ∀ s : LoopState σ,
        wndProc opts dh s m = runDefault dh s m ∧
        wndProc opts dh s m = wndProc (withoutInterceptor opts) dh s m) ∧
    (∀ s : LoopState σ,
        messageLoop opts dh s ms = messageLoop (withoutInterceptor opts) dh s ms) := by
  have hd : ∀ m ∈ ms, ∀ s : LoopState σ, wndProc opts dh s m = runDefault dh s m :=
    fun m hm s => wndProc_of_passesThrough opts dh s m (h m hm)
  refine ⟨fun m hm s => ⟨hd m hm s, ?_⟩, messageLoop_passthrough opts dh ms hd⟩
  rw [hd m hm s, wndProc_of_unregistered (withoutInterceptor opts) dh s m rfl]

/-- Witness of C2 on the end-to-end example: with `closeVeto` registered, message `0x000F` is
passed through, and the loop gives what it gives with no interceptor. -/
theorem interceptor_passthrough_is_default_witness :
    (∀ m ∈ [({ hwnd := 7, msg := 15, wParam := 0, lParam := 0 } : Message)],
        passesThrough closeVetoOptions m) ∧
    ∀ s : LoopState Nat,
      messageLoop closeVetoOptions countingHandler s
          [{ hwnd := 7, msg := 15, wParam := 0, lParam := 0 }]
        = messageLoop (withoutInterceptor closeVetoOptions) countingHandler s
          [{ hwnd := 7, msg := 15, wParam := 0, lParam := 0 }] :=
  have hp : ∀ m ∈ [({ hwnd := 7, msg := 15, wParam := 0, lParam := 0 } : Message)],
      passesThrough closeVetoOptions m := by
    intro m hm
    rw [List.mem_singleton] at hm
    subst hm
    exact Or.inr ⟨closeVeto, rfl, rfl⟩
  ⟨hp, (interceptor_passthrough_is_default closeVetoOptions countingHandler _ hp).2⟩

/-! ## Event mapping -/

theorem lookup_of_mem_of_nodup_keys (table : List (WindowEventType × WindowEventType))
    (hkeys : (table.map Prod.fst).Nodup) (e c : WindowEventType) (hmem : (e, c) ∈ table) :
    table.lookup e = some c := by
  induction table with
  | nil => simp at hmem
  | cons p t ih =>
    obtain ⟨k, v⟩ := p
    simp only [List.map_cons, List.nodup_cons, List.mem_map, not_exists, not_and] at hkeys
    rcases List.mem_cons.1 hmem with h | h
    · cases h
      simp [List.lookup]
    · have hne : e ≠ k := fun he => hkeys.1 (e, c) h (by simp [he])
      have hb : (e == k) = false := by simpa using hne
      simp only [List.lookup, hb]
      exact ih hkeys.2 h

theorem lookup_none_of_not_key (table : List (WindowEventType × WindowEventType))
    (e : WindowEventType) (hkey : e ∉ table.map Prod.fst) : table.lookup e = none := by
  induction table with
  | nil => rfl
  | cons p t ih =>
    obtain ⟨k, v⟩ := p
    simp only [List.map_cons, List.mem_cons, not_or] at hkey
    have hb : (e == k) = false := by simpa using hkey.1
    simp only [List.lookup, hb]
    exact ih hkey.2

/-- C3: event translation is a lookup in `WindowsWindow.EventMapping`. For a table with unique
keys, an event that is a key with entry `(e, c)` translates to `c`; an event that is not a key
translates to itself; and with the default `nil` table every event translates to itself. -/
theorem translateEvent_lookup (w : WindowsWindow) :
    (∀ table, w.EventMapping = some table → (table.map Prod.fst).Nodup →
        ∀ e c, (e, c) ∈ table → translateEvent w e = c) ∧
    (∀ table, w.EventMapping = some table →
        ∀ e, e ∉ table.map Prod.fst → translateEvent w e = e) ∧
    (w.EventMapping = none → ∀ e, translateEvent w e = e) := by
  refine ⟨?_, ?_, ?_⟩
  · intro table ht hkeys e c hmem
    simp [translateEvent, ht, lookup_of_mem_of_nodup_keys table hkeys e c hmem]
  · intro table ht e hkey
    simp [translateEvent, ht, lookup_none_of_not_key table e hkey]
  · intro ht e
    simp [translateEvent, ht]

/-- Witness of C3: in `mappedWindow` event `3` translates to `10`, event `4`, which is not a key,
to itself. -/
theorem translateEvent_lookup_witness :
    (mappedWindow.EventMapping = some [(3, 10), (5, 11)] ∧
      (([(3, 10), (5, 11)] : List (WindowEventType × WindowEventType)).map Prod.fst).Nodup ∧
      ((3, 10) : WindowEventType × WindowEventType) ∈ [(3, 10), (5, 11)] ∧
      (4 : WindowEventType) ∉
        ([(3, 10), (5, 11)] : List (WindowEventType × WindowEventType)).map Prod.fst) ∧
    translateEvent mappedWindow 3 = 10 ∧ translateEvent mappedWindow 4 = 4 :=
  ⟨⟨rfl, by decide, by decide, by decide⟩,
   (translateEvent_lookup mappedWindow).1 [(3, 10), (5, 11)] rfl (by decide) 3 10 (by decide),
   (translateEvent_lookup mappedWindow).2.1 [(3, 10), (5, 11)] rfl 4 (by decide)⟩

/-! ## Enumerations and zero values -/

/-- C4: the `BackdropType` constants are the five names `Auto`, `None`, `Mica`, `Acrylic`,
`Tabbed` with the values `0, 1, 2, 3, 4`; the values are pairwise distinct; and the zero value of
`BackdropType`, which is the `BackdropType` field of the zero `WindowsWindow`, is `Auto`. -/
theorem backdropType_constants :
    backdropConsts.map Prod.fst = ["Auto", "None", "Mica", "Acrylic", "Tabbed"] ∧
    backdropConsts.map Prod.snd = [0, 1, 2, 3, 4] ∧
    backdropConsts.length = 5 ∧
    (backdropConsts.map Prod.snd).Nodup ∧
    (Auto = 0 ∧ None = 1 ∧ Mica = 2 ∧ Acrylic = 3 ∧ Tabbed = 4) ∧
    (GoZero.zero : BackdropType) = Auto ∧
    (GoZero.zero : WindowsWindow).BackdropType = Auto := by
  refine ⟨rfl, rfl, rfl, ?_, ⟨rfl, rfl, rfl, rfl, rfl⟩, rfl, rfl⟩
  decide

/-- C5: the `Theme` constants are the three names `SystemDefault`, `Dark`, `Light` with the
values `0, 1, 2`; the values are pairwise distinct; and the zero value of `Theme`, which is the
`Theme` field of the zero `WindowsWindow`, is `SystemDefault`. -/
theorem theme_constants :
    themeConsts.map Prod.fst = ["SystemDefault", "Dark", "Light"] ∧
    themeConsts.map Prod.snd = [0, 1, 2] ∧
    themeConsts.length = 3 ∧
    (themeConsts.map Prod.snd).Nodup ∧
    (SystemDefault = 0 ∧ Dark = 1 ∧ Light = 2) ∧
    (GoZero.zero : Theme) = SystemDefault ∧
    (GoZero.zero : WindowsWindow).Theme = SystemDefault := by
  refine ⟨rfl, rfl, rfl, ?_, ⟨rfl, rfl, rfl⟩, rfl, rfl⟩
  decide

/-- C6: the zero value of `WindowsWindow` carries the documented defaults: the eight boolean
switches are `false`, `ResizeDebounceMS` is `0`, and `CustomTheme`, `WindowMask` and
`EventMapping` are `nil`. -/
theorem windowsWindow_zero_defaults :
    (GoZero.zero : WindowsWindow).DisableIcon = false ∧
    (GoZero.zero : WindowsWindow).DisableFramelessWindowDecorations = false ∧
    (GoZero.zero : WindowsWindow).WindowMaskDraggable = false ∧
    (GoZero.zero : WindowsWindow).WebviewGpuIsDisabled = false ∧
    (GoZero.zero : WindowsWindow).DisableMenu = false ∧
    (GoZero.zero : WindowsWindow).HiddenOnTaskbar = false ∧
    (GoZero.zero : WindowsWindow).EnableSwipeGestures = false ∧
    (GoZero.zero : WindowsWindow).EnableFraudulentWebsiteWarnings = false ∧
    (GoZero.zero : WindowsWindow).ResizeDebounceMS = 0 ∧
    (GoZero.zero : WindowsWindow).CustomTheme = none ∧
    (GoZero.zero : WindowsWindow).WindowMask = none ∧
    (GoZero.zero : WindowsWindow).EventMapping = none :=
  ⟨rfl, rfl, rfl, rfl, rfl, rfl, rfl, rfl, rfl, rfl, rfl, rfl⟩

/-! ## Colours -/

/-- C7: a colour `0x00BBGGRR` with each channel in `0..255` is non-negative and below `2^24`,
so converting it to `int32` leaves it unchanged and every `ThemeSettings` field assigned it holds
exactly that value; the channels are recovered from the stored value by division and remainder;
and two such colours that are stored as the same value have the same channels. -/
theorem hexBGR_stored_exactly (b g r : Nat) (hb : b < 256) (hg : g < 256) (hr : r < 256) :
    (0 ≤ hexBGR b g r ∧ hexBGR b g r < 2 ^ 24) ∧
    toInt32 (hexBGR b g r) = hexBGR b g r ∧
    (ThemeSettings.uniform b g r).fields = List.replicate 12 (hexBGR b g r) ∧
    (toInt32 (hexBGR b g r) % 256 = r ∧
      toInt32 (hexBGR b g r) / 256 % 256 = g ∧
      toInt32 (hexBGR b g r) / 65536 % 256 = b) ∧
    (∀ b2 g2 r2 : Nat, b2 < 256 → g2 < 256 → r2 < 256 →
      toInt32 (hexBGR b2 g2 r2) = toInt32 (hexBGR b g r) → b2 = b ∧ g2 = g ∧ r2 = r) := by
  have hfix : ∀ x y z : Nat, x < 256 → y < 256 → z < 256 →
      toInt32 (hexBGR x y z) = hexBGR x y z := by
    intro x y z hx hy hz
    simp only [toInt32, hexBGR]
    push_cast
    omega
  refine ⟨⟨?_, ?_⟩, hfix b g r hb hg hr, ?_, ⟨?_, ?_, ?_⟩, ?_⟩
  · simp only [hexBGR]; omega
  · simp only [hexBGR]; push_cast; omega
  · simp [ThemeSettings.uniform, ThemeSettings.fields, hfix b g r hb hg hr, List.replicate]
  · rw [hfix b g r hb hg hr]; simp only [hexBGR]; push_cast; omega
  · rw [hfix b g r hb hg hr]; simp only [hexBGR]; push_cast; omega
  · rw [hfix b g r hb hg hr]; simp only [hexBGR]; push_cast; omega
  · intro b2 g2 r2 hb2 hg2 hr2 heq
    rw [hfix b g r hb hg hr, hfix b2 g2 r2 hb2 hg2 hr2] at heq
    simp only [hexBGR] at heq
    have hnat : b2 * 65536 + g2 * 256 + r2 = b * 65536 + g * 256 + r := by exact_mod_cast heq
    omega

/-- Witness of C7 at the colour `0x00FF8040`. -/
theorem hexBGR_stored_exactly_witness :
    ((255 : Nat) < 256 ∧ (128 : Nat) < 256 ∧ (64 : Nat) < 256) ∧
    toInt32 (hexBGR 255 128 64) = hexBGR 255 128 64 :=
  ⟨by decide, (hexBGR_stored_exactly 255 128 64 (by decide) (by decide) (by decide)).2.1⟩

/-- C10: black, `0x00000000`, is the zero value of an `int32` colour field, so the
`ThemeSettings` with all twelve fields set to black is the zero `ThemeSettings`: the two have the
same twelve field values and no observation of a `ThemeSettings` tells them apart. -/
theorem themeSettings_black_is_zero :
    hexBGR 0 0 0 = 0 ∧
    toInt32 (hexBGR 0 0 0) = (GoZero.zero : Int) ∧
    ThemeSettings.uniform 0 0 0 = (GoZero.zero : ThemeSettings) ∧
    (ThemeSettings.uniform 0 0 0).fields = (GoZero.zero : ThemeSettings).fields ∧
    (GoZero.zero : ThemeSettings).fields = List.replicate 12 0 ∧
    (∀ (α : Type) (observe : ThemeSettings → α),
      observe (ThemeSettings.uniform 0 0 0) = observe (GoZero.zero : ThemeSettings)) := by
  have h : ThemeSettings.uniform 0 0 0 = (GoZero.zero : ThemeSettings) := by decide
  exact ⟨by decide, by decide, h, by rw [h], by decide, fun _ observe => by rw [h]⟩

/-! ## Backdrop -/

/-- C8: a window that requests Mica, Acrylic or Tabbed on a build below 22621 has `Auto` as its
resolved backdrop, and its realization succeeds with that backdrop. -/
theorem backdrop_unsupported_degrades_to_auto (osBuild : Nat) (w : WindowsWindow)
    (hreq : w.BackdropType = Mica ∨ w.BackdropType = Acrylic ∨ w.BackdropType = Tabbed)
    (hos : osBuild < 22621) :
    resolveBackdrop osBuild w.BackdropType = Auto ∧
    realizeWindow osBuild w = Except.ok { options := w, backdrop := Auto } := by
  have h : resolveBackdrop osBuild w.BackdropType = Auto := by
    unfold resolveBackdrop
    rw [if_pos ⟨hreq, hos⟩]
  exact ⟨h, by simp [realizeWindow, h]⟩

/-- Witness of C8: `micaWindow` on build 22000. -/
theorem backdrop_unsupported_degrades_to_auto_witness :
    ((micaWindow.BackdropType = Mica ∨ micaWindow.BackdropType = Acrylic ∨
        micaWindow.BackdropType = Tabbed) ∧ 22000 < 22621) ∧
    resolveBackdrop 22000 micaWindow.BackdropType = Auto ∧
    realizeWindow 22000 micaWindow = Except.ok { options := micaWindow, backdrop := Auto } :=
  ⟨⟨Or.inl rfl, by decide⟩,
   backdrop_unsupported_degrades_to_auto 22000 micaWindow (Or.inl rfl) (by decide)⟩

/-! ## Theme -/

theorem afterNotifications_lockedDark (r : SystemTheme) (ns : List SystemTheme) :
    afterNotifications { mode := ThemeMode.LockedDark, resolved := r } ns
      = { mode := ThemeMode.LockedDark, resolved := r } := by
  induction ns with
  | nil => rfl
  | cons n ns ih => simpa [afterNotifications, onSystemThemeChanged] using ih

theorem afterNotifications_lockedLight (r : SystemTheme) (ns : List SystemTheme) :
    afterNotifications { mode := ThemeMode.LockedLight, resolved := r } ns
      = { mode := ThemeMode.LockedLight, resolved := r } := by
  induction ns with
  | nil => rfl
  | cons n ns ih => simpa [afterNotifications, onSystemThemeChanged] using ih

theorem afterNotifications_following (r : SystemTheme) (ns : List SystemTheme) (n : SystemTheme) :
    afterNotifications { mode := ThemeMode.FollowingSystem, resolved := r } (ns ++ [n])
      = { mode := ThemeMode.FollowingSystem, resolved := n } := by
  induction ns generalizing r with
  | nil => rfl
  | cons a ns ih => simpa [afterNotifications, onSystemThemeChanged] using ih a

/-- C9: a window with `Theme = SystemDefault` is created with the current system theme and after
any system theme-change notifications its resolved theme is the one of the last notification,
which differs from the state before when the system theme differs; a window with `Theme = Dark`
or `Theme = Light` is created dark, respectively light, and no sequence of notifications alters
its theme state. -/
theorem theme_follows_system_only_when_default :
    (∀ (sys0 : SystemTheme) (ns : List SystemTheme) (n : SystemTheme),
      ∃ s, resolveTheme SystemDefault sys0 = some s ∧ s.resolved = sys0 ∧
        (onSystemThemeChanged s n).resolved = n ∧
        (afterNotifications s (ns ++ [n])).resolved = n ∧
        (n ≠ sys0 → onSystemThemeChanged s n ≠ s)) ∧
    (∀ (sys0 : SystemTheme) (ns : List SystemTheme),
      ∃ s, resolveTheme Dark sys0 = some s ∧ s.resolved = SystemTheme.dark ∧
        afterNotifications s ns = s) ∧
    (∀ (sys0 : SystemTheme) (ns : List SystemTheme),
      ∃ s, resolveTheme Light sys0 = some s ∧ s.resolved = SystemTheme.light ∧
        afterNotifications s ns = s) := by
  refine ⟨?_, ?_, ?_⟩
  · intro sys0 ns n
    refine ⟨{ mode := ThemeMode.FollowingSystem, resolved := sys0 }, rfl, rfl, rfl, ?_, ?_⟩
    · rw [afterNotifications_following]
    · intro hne heq
      apply hne
      have := congrArg ThemeState.resolved heq
      simpa [onSystemThemeChanged] using this
  · intro sys0 ns
    exact ⟨{ mode := ThemeMode.LockedDark, resolved := SystemTheme.dark }, rfl, rfl,
      afterNotifications_lockedDark _ ns⟩
  · intro sys0 ns
    exact ⟨{ mode := ThemeMode.LockedLight, resolved := SystemTheme.light }, rfl, rfl,
      afterNotifications_lockedLight _ ns⟩

/-- Witness of C9: a dark-locked window created under a light system theme stays as created
through the notifications light, dark, light. -/
theorem theme_follows_system_only_when_default_witness :
    ∃ s, resolveTheme Dark SystemTheme.light = some s ∧ s.resolved = SystemTheme.dark ∧
      afterNotifications s [SystemTheme.light, SystemTheme.dark, SystemTheme.light] = s :=
  theme_follows_system_only_when_default.2.1 SystemTheme.light
    [SystemTheme.light, SystemTheme.dark, SystemTheme.light]

end WailsOptions
